import Mathlib

/-
  Verification of the LifeNest insurance-platform backend.

  Shallow embedding of the Express/MongoDB server: documents are
  association lists of string keys and JSON-like values, collections are
  lists of documents, handlers are pure functions from the request and
  the relevant collections to a response and the updated collections.
  All definitions are translated from the route handlers and middleware
  in the repository sources.
-/

namespace LifeNest

/-- JSON-like field values stored in documents: strings, dates
(modelled as a natural-number clock), and booleans. -/
inductive Value where
  | str : String → Value
  | time : Nat → Value
  | bool : Bool → Value
deriving DecidableEq, Repr

/-- A MongoDB document: an association list from field names to values. -/
abbrev Doc := List (String × Value)

/-- Read a field of a document; the first binding of the key wins,
missing keys read as none (JS undefined). -/
def getField : Doc → String → Option Value
  | [], _ => none
  | (k0, v) :: rest, k => if k0 = k then some v else getField rest k

/-- JS property assignment and MongoDB set semantics: replace the first
binding of the key, or append the binding when the key is absent. -/
def setField : Doc → String → Value → Doc
  | [], k, v => [(k, v)]
  | (k0, v0) :: rest, k, v =>
      if k0 = k then (k, v) :: rest else (k0, v0) :: setField rest k v

/-- Apply a list of field assignments left to right (a MongoDB set
document applied to an existing document). -/
def setFields : Doc → Doc → Doc
  | d, [] => d
  | d, kv :: rest => setFields (setField d kv.1 kv.2) rest

/-- JS truthiness of a field value. -/
def truthyV : Value → Bool
  | Value.str s => !s.data.isEmpty
  | Value.time _ => true
  | Value.bool b => b

/-- JS truthiness of a possibly missing field (undefined is falsy). -/
def truthy : Option Value → Bool
  | none => false
  | some v => truthyV v

/-- MongoDB findOne: the first document of the collection matching the
filter. -/
def findOne (ds : List Doc) (pred : Doc → Bool) : Option Doc :=
  ds.find? pred

/-- MongoDB deleteOne: remove the first matching document, returning the
new collection and the deleted count. -/
def deleteOne : List Doc → (Doc → Bool) → List Doc × Nat
  | [], _ => ([], 0)
  | d :: rest, pred =>
      if pred d then (rest, 1)
      else
        let r := deleteOne rest pred
        (d :: r.1, r.2)

/-- Result of a MongoDB updateOne: the new collection, the matched count
and the modified count. -/
structure UpdateResult where
  list : List Doc
  matched : Nat
  modified : Nat
deriving Repr

/-- MongoDB updateOne with a set document: update the first matching
document; modified counts only actual changes. -/
def updateOne : List Doc → (Doc → Bool) → Doc → UpdateResult
  | [], _, _ => ⟨[], 0, 0⟩
  | d :: rest, pred, sets =>
      if pred d then
        let d2 := setFields d sets
        ⟨d2 :: rest, 1, if d2 = d then 0 else 1⟩
      else
        let r := updateOne rest pred sets
        ⟨d :: r.list, r.matched, r.modified⟩

/-- MongoDB updateOne with upsert: update the first matching document,
or insert a document built from the set fields when none matches. -/
def upsertOne : List Doc → (Doc → Bool) → Doc → List Doc
  | [], _, sets => [setFields [] sets]
  | d :: rest, pred, sets =>
      if pred d then setFields d sets :: rest
      else d :: upsertOne rest pred sets

/-- MongoDB insertOne: append the document, assigning the fresh
identifier when the document carries no identifier of its own; returns
the new collection and the inserted identifier. -/
def insertOne (ds : List Doc) (d : Doc) (freshId : String) : List Doc × String :=
  match getField d "_id" with
  | some (Value.str s) => (ds ++ [d], s)
  | some _ => (ds ++ [d], "")
  | none => (ds ++ [setField d "_id" (Value.str freshId)], freshId)

/-- Hexadecimal digit test for ObjectId validation. -/
def isHexDigit (c : Char) : Bool :=
  (Char.ofNat 48 ≤ c && c ≤ Char.ofNat 57) ||
  (Char.ofNat 97 ≤ c && c ≤ Char.ofNat 102) ||
  (Char.ofNat 65 ≤ c && c ≤ Char.ofNat 70)

/-- Validity of a path-segment identifier as a document-store key: the
ObjectId constructor accepts exactly a 24-character hexadecimal string
and throws otherwise. -/
def isValidObjectId (s : String) : Bool :=
  s.data.length = 24 && s.data.all isHexDigit

/-- Filter matching a document whose identifier field equals the given
path-segment identifier. -/
def idMatch (id_ : String) (d : Doc) : Bool :=
  decide (getField d "_id" = some (Value.str id_))

/-- Filter matching a document whose email field equals the given
address. -/
def emailMatch (e : String) (d : Doc) : Bool :=
  decide (getField d "email" = some (Value.str e))

/-- Verified identity decoded from a bearer token: subject email plus
the optional name and role claims carried by the token. -/
structure Principal where
  email : String
  name : Option String
  role : Option String
deriving DecidableEq, Repr

/-- External dependencies of a request: the identity verifier (the
Firebase verifyIdToken call, returning none on a rejected token) and
the server clock. -/
structure Env where
  verify : String → Option Principal
  now : Nat

/-- An inbound HTTP request: optional Authorization header, JSON body,
and the path-segment parameter where the route has one. -/
structure Request where
  authHeader : Option String
  body : Doc
  param : String

/-- An HTTP response: status code, message, document payload, and the
inserted identifier when the handler reports one. -/
structure Response where
  status : Nat
  message : String
  payload : List Doc
  insertedId : Option String
deriving DecidableEq, Repr

/-- Response carrying only a status and a message. -/
def mkResp (s : Nat) (m : String) : Response := ⟨s, m, [], none⟩

/-- List of characters split on spaces, modelling the JS string split
on a single-space separator. -/
def splitSpaceAux : List Char → List Char → List (List Char)
  | [], acc => [acc.reverse]
  | c :: cs, acc =>
      if c = ' ' then acc.reverse :: splitSpaceAux cs []
      else splitSpaceAux cs (c :: acc)

/-- The token part of an Authorization header: element one of the
header split on spaces, the JS expression authHeader.split at index 1
(the empty string standing for JS undefined). -/
def extractToken (h : String) : String :=
  String.mk ((splitSpaceAux h.data []).getD 1 [])

/-- Prefix test on character lists. -/
def listIsPrefixOf : List Char → List Char → Bool
  | [], _ => true
  | _ :: _, [] => false
  | a :: as, b :: bs => a = b && listIsPrefixOf as bs

/-- The JS test that the Authorization header starts with the Bearer
scheme followed by a space. -/
def startsWithBearer (s : String) : Bool :=
  listIsPrefixOf "Bearer ".data s.data

/-- The verifyToken middleware: requires a Bearer-form Authorization
header, then delegates the token to the identity verifier; absence or a
malformed header answers 401 no-token, a rejected token answers 401
invalid-token. -/
def verifyToken (env : Env) (req : Request) : Except Response Principal :=
  match req.authHeader with
  | none => Except.error (mkResp 401 "Unauthorized, no token")
  | some h =>
      if startsWithBearer h then
        match env.verify (extractToken h) with
        | some p => Except.ok p
        | none => Except.error (mkResp 401 "Unauthorized, invalid token")
      else Except.error (mkResp 401 "Unauthorized, no token")

/-- The verifyJWT middleware: requires only the presence of the
Authorization header (401 when absent), extracts the token at index one
of the split header, and answers 403 Forbidden when the verifier
rejects it. -/
def verifyJWT (env : Env) (req : Request) : Except Response Principal :=
  match req.authHeader with
  | none => Except.error (mkResp 401 "Unauthorized")
  | some h =>
      match env.verify (extractToken h) with
      | some p => Except.ok p
      | none => Except.error (mkResp 403 "Forbidden")

/-- Core of the verifyAdmin middleware given the outcome of the role
store lookup; the error case is the catch branch around the lookup,
whose internal error detail is the string argument. -/
def verifyAdminWith (look : Except String (Option Doc)) : Except Response Unit :=
  match look with
  | Except.error _ =>
      Except.error (mkResp 500 "Server error during admin verification")
  | Except.ok none =>
      Except.error (mkResp 403 "Forbidden: Admin access required")
  | Except.ok (some u) =>
      if getField u "role" = some (Value.str "admin") then Except.ok ()
      else Except.error (mkResp 403 "Forbidden: Admin access required")

/-- The verifyAdmin middleware on a successful role-store read. -/
def verifyAdmin (users : List Doc) (p : Principal) : Except Response Unit :=
  verifyAdminWith (Except.ok (findOne users (emailMatch p.email)))

/-- Core of the verifyAgent middleware given the outcome of the role
store lookup. -/
def verifyAgentWith (look : Except String (Option Doc)) : Except Response Unit :=
  match look with
  | Except.error _ =>
      Except.error (mkResp 500 "Server error during agent verification")
  | Except.ok none =>
      Except.error (mkResp 403 "Forbidden: Agent access required")
  | Except.ok (some u) =>
      if getField u "role" = some (Value.str "agent") then Except.ok ()
      else Except.error (mkResp 403 "Forbidden: Agent access required")

/-- The verifyAgent middleware on a successful role-store read. -/
def verifyAgent (users : List Doc) (p : Principal) : Except Response Unit :=
  verifyAgentWith (Except.ok (findOne users (emailMatch p.email)))

/-- A route guarded by verifyToken: the handler runs on the state only
after the middleware admits the request. -/
def runAuthTok (env : Env) (req : Request)
    (handler : Principal → List Doc → Response × List Doc)
    (s : List Doc) : Response × List Doc :=
  match verifyToken env req with
  | Except.error r => (r, s)
  | Except.ok p => handler p s

/-- A route guarded by verifyJWT. -/
def runAuthJWT (env : Env) (req : Request)
    (handler : Principal → List Doc → Response × List Doc)
    (s : List Doc) : Response × List Doc :=
  match verifyJWT env req with
  | Except.error r => (r, s)
  | Except.ok p => handler p s

/-- A route guarded by verifyToken then verifyAgent. -/
def agentGatedRoute (env : Env) (req : Request) (users : List Doc)
    (handler : Principal → List Doc → Response × List Doc)
    (s : List Doc) : Response × List Doc :=
  match verifyToken env req with
  | Except.error r => (r, s)
  | Except.ok p =>
      match verifyAgent users p with
      | Except.error r => (r, s)
      | Except.ok _ => handler p s

/-- A route guarded by verifyToken then verifyAdmin. -/
def adminGatedRoute (env : Env) (req : Request) (users : List Doc)
    (handler : Principal → List Doc → Response × List Doc)
    (s : List Doc) : Response × List Doc :=
  match verifyToken env req with
  | Except.error r => (r, s)
  | Except.ok p =>
      match verifyAdmin users p with
      | Except.error r => (r, s)
      | Except.ok _ => handler p s

/-- The public GET policies-by-id handler: the ObjectId coercion of the
path parameter throws on a malformed identifier, which the catch block
turns into a 500 response; a well-formed but absent identifier answers
404. -/
def getPolicyById (policies : List Doc) (idStr : String) : Response :=
  if isValidObjectId idStr then
    match findOne policies (idMatch idStr) with
    | some p => ⟨200, "", [p], none⟩
    | none => mkResp 404 "Policy not found"
  else mkResp 500 "Failed to fetch policy"

/-- Claim C6 counterexample: a malformed path identifier on the GET
policies-by-id route is answered with status 500, not the 404 the claim
states; the probe identifier is not a valid 24-hex key yet the status
differs from 404. -/
theorem c6_counterexample :
    isValidObjectId "zzz" = false ∧
    (getPolicyById [] "zzz").status = 500 ∧
    (getPolicyById [] "zzz").status ≠ 404 := by
  decide

/-- Claim C6 (amended): a path-segment identifier that is not a valid
24-hex document-store key makes the coercion throw and the handler
answer 500 (a server error), not 404 and not 400; only a well-formed
identifier with no matching record answers 404. -/
theorem c6_invalid_id_is_server_error (policies : List Doc) (idStr : String) :
    (isValidObjectId idStr = false →
      getPolicyById policies idStr = mkResp 500 "Failed to fetch policy") ∧
    (isValidObjectId idStr = true →
      findOne policies (idMatch idStr) = none →
      getPolicyById policies idStr = mkResp 404 "Policy not found") := by
  constructor
  · intro h
    simp [getPolicyById, h]
  · intro h hnone
    simp [getPolicyById, h, hnone]

/-- Witness for the amended claim C6 at concrete inputs. -/
theorem c6_invalid_id_is_server_error_witness :
    getPolicyById [] "zz" = mkResp 500 "Failed to fetch policy" ∧
    getPolicyById [] "aaaaaaaaaaaaaaaaaaaaaaaa" = mkResp 404 "Policy not found" :=
  ⟨(c6_invalid_id_is_server_error [] "zz").1 (by decide),
   (c6_invalid_id_is_server_error [] "aaaaaaaaaaaaaaaaaaaaaaaa").2 (by decide) (by decide)⟩

/-- Date ordering key of a blog document for the publishDate sort. -/
def dateKey (d : Doc) : Nat :=
  match getField d "publishDate" with
  | some (Value.time n) => n
  | _ => 0

/-- Insert a document into a list kept in descending publishDate
order. -/
def insertDesc (d : Doc) : List Doc → List Doc
  | [] => [d]
  | e :: es => if dateKey e < dateKey d then d :: e :: es else e :: insertDesc d es

/-- Sort documents by descending publishDate (latest first). -/
def sortByDateDesc (ds : List Doc) : List Doc :=
  ds.foldr insertDesc []

/-- The authenticated GET blogs listing: looks the requester up in the
role store and, when the stored role is agent, restricts the listing to
the blogs the requester authored; the stored role is dereferenced
without a missing-record check, so an absent UserRecord throws and the
catch block answers 500. -/
def getBlogs (env : Env) (req : Request) (users blogs : List Doc) : Response :=
  match verifyToken env req with
  | Except.error r => r
  | Except.ok p =>
      match findOne users (emailMatch p.email) with
      | none => mkResp 500 "Failed to fetch blogs"
      | some u =>
          let filtered :=
            if getField u "role" = some (Value.str "agent") then
              blogs.filter (fun b => decide (getField b "authorEmail" = some (Value.str p.email)))
            else blogs
          ⟨200, "", sortByDateDesc filtered, none⟩

/-- Claim C2: role gates are disjoint equality checks, not a hierarchy:
with a valid token whose stored role is admin, any route gated by
verifyAgent answers 403 Forbidden with the handler never run, and
symmetrically a stored agent role fails any verifyAdmin gate with 403. -/
theorem c2_role_gates_disjoint (env : Env) (req : Request) (users s : List Doc)
    (handler : Principal → List Doc → Response × List Doc)
    (h : String) (p : Principal) (u : Doc)
    (hhdr : req.authHeader = some h) (hbear : startsWithBearer h = true)
    (hver : env.verify (extractToken h) = some p)
    (hu : findOne users (emailMatch p.email) = some u) :
    (getField u "role" = some (Value.str "admin") →
      agentGatedRoute env req users handler s =
        (mkResp 403 "Forbidden: Agent access required", s)) ∧
    (getField u "role" = some (Value.str "agent") →
      adminGatedRoute env req users handler s =
        (mkResp 403 "Forbidden: Admin access required", s)) := by
  constructor
  · intro hrole
    simp [agentGatedRoute, verifyToken, verifyAgent, verifyAgentWith,
      hhdr, hbear, hver, hu, hrole]
  · intro hrole
    simp [adminGatedRoute, verifyToken, verifyAdmin, verifyAdminWith,
      hhdr, hbear, hver, hu, hrole]

/-- Witness for claim C2 at concrete inputs: an admin record refused by
the agent gate and an agent record refused by the admin gate. -/
theorem c2_role_gates_disjoint_witness :
    agentGatedRoute ⟨fun _ => some ⟨"adm@x.y", none, none⟩, 0⟩ ⟨some "Bearer t", [], ""⟩
        [[("email", Value.str "adm@x.y"), ("role", Value.str "admin")]]
        (fun _ s => (mkResp 200 "ok", s)) [] =
      (mkResp 403 "Forbidden: Agent access required", []) ∧
    adminGatedRoute ⟨fun _ => some ⟨"agt@x.y", none, none⟩, 0⟩ ⟨some "Bearer t", [], ""⟩
        [[("email", Value.str "agt@x.y"), ("role", Value.str "agent")]]
        (fun _ s => (mkResp 200 "ok", s)) [] =
      (mkResp 403 "Forbidden: Admin access required", []) :=
  ⟨(c2_role_gates_disjoint ⟨fun _ => some ⟨"adm@x.y", none, none⟩, 0⟩
      ⟨some "Bearer t", [], ""⟩
      [[("email", Value.str "adm@x.y"), ("role", Value.str "admin")]] []
      (fun _ s => (mkResp 200 "ok", s)) "Bearer t" ⟨"adm@x.y", none, none⟩
      [("email", Value.str "adm@x.y"), ("role", Value.str "admin")]
      rfl (by decide) rfl (by decide)).1 (by decide),
   (c2_role_gates_disjoint ⟨fun _ => some ⟨"agt@x.y", none, none⟩, 0⟩
      ⟨some "Bearer t", [], ""⟩
      [[("email", Value.str "agt@x.y"), ("role", Value.str "agent")]] []
      (fun _ s => (mkResp 200 "ok", s)) "Bearer t" ⟨"agt@x.y", none, none⟩
      [("email", Value.str "agt@x.y"), ("role", Value.str "agent")]
      rfl (by decide) rfl (by decide)).2 (by decide)⟩

/-- Claim C3 counterexample: an authenticated GET blogs request by a
subject with no UserRecord is answered 500, not handled by treating the
role as user: the missing record is dereferenced and the handler
fails. -/
theorem c3_counterexample :
    getBlogs ⟨fun _ => some ⟨"new@x.y", none, none⟩, 0⟩ ⟨some "Bearer t", [], ""⟩ [] [] =
      mkResp 500 "Failed to fetch blogs" ∧
    (getBlogs ⟨fun _ => some ⟨"new@x.y", none, none⟩, 0⟩ ⟨some "Bearer t", [], ""⟩ [] []).status ≠ 403 := by
  decide

/-- Claim C3 (amended): in the role-gate middleware a subject with no
UserRecord fails the comparison exactly as the default role user would,
answering 403 Forbidden without failing the lookup and without creating
a record; but on the authenticated GET blogs listing the missing record
makes role resolution itself fail and the request is answered 500. -/
theorem c3_missing_record (users : List Doc) (p : Principal)
    (hnone : findOne users (emailMatch p.email) = none) :
    verifyAdmin users p = Except.error (mkResp 403 "Forbidden: Admin access required") ∧
    verifyAgent users p = Except.error (mkResp 403 "Forbidden: Agent access required") ∧
    (∀ (env : Env) (req : Request) (blogs : List Doc) (h : String),
      req.authHeader = some h → startsWithBearer h = true →
      env.verify (extractToken h) = some p →
      getBlogs env req users blogs = mkResp 500 "Failed to fetch blogs") := by
  refine ⟨?_, ?_, ?_⟩
  · simp [verifyAdmin, verifyAdminWith, hnone]
  · simp [verifyAgent, verifyAgentWith, hnone]
  · intro env req blogs h hhdr hbear hver
    simp [getBlogs, verifyToken, hhdr, hbear, hver, hnone]

/-- Witness for the amended claim C3 at concrete inputs. -/
theorem c3_missing_record_witness :
    verifyAdmin [] ⟨"new@x.y", none, none⟩ =
      Except.error (mkResp 403 "Forbidden: Admin access required") ∧
    verifyAgent [] ⟨"new@x.y", none, none⟩ =
      Except.error (mkResp 403 "Forbidden: Agent access required") ∧
    getBlogs ⟨fun _ => some ⟨"new@x.y", none, none⟩, 0⟩ ⟨some "Bearer t", [], ""⟩ [] [] =
      mkResp 500 "Failed to fetch blogs" :=
  ⟨(c3_missing_record [] ⟨"new@x.y", none, none⟩ rfl).1,
   (c3_missing_record [] ⟨"new@x.y", none, none⟩ rfl).2.1,
   (c3_missing_record [] ⟨"new@x.y", none, none⟩ rfl).2.2
     ⟨fun _ => some ⟨"new@x.y", none, none⟩, 0⟩ ⟨some "Bearer t", [], ""⟩ []
     "Bearer t" rfl (by decide) rfl⟩

/-- Claim C1 counterexample: on a route guarded by verifyJWT, a request
presenting a Bearer token that the identity verifier rejects is
answered with status 403, not the 401 the claim states; the handler
does not run (the state is unchanged). -/
theorem c1_counterexample :
    (runAuthJWT ⟨fun _ => none, 0⟩ ⟨some "Bearer tok", [], ""⟩
        (fun _ s => (mkResp 200 "ok", s)) []).1.status = 403 ∧
    (runAuthJWT ⟨fun _ => none, 0⟩ ⟨some "Bearer tok", [], ""⟩
        (fun _ s => (mkResp 200 "ok", s)) []).1.status ≠ 401 ∧
    (runAuthJWT ⟨fun _ => none, 0⟩ ⟨some "Bearer tok", [], ""⟩
        (fun _ s => (mkResp 200 "ok", s)) []).2 = [] := by
  decide

/-- Claim C1 (amended): on a route guarded by verifyToken, an absent or
non-Bearer Authorization header or a token rejected by the identity
verifier is answered 401 with the chain terminated and the handler
never run; on a route guarded by verifyJWT, an absent header is
answered 401 but a token rejected by the verifier is answered 403; in
every such case the state is unchanged, showing no handler side effect
occurs. -/
theorem c1_auth_failures (env : Env) (req : Request)
    (handler : Principal → List Doc → Response × List Doc) (s : List Doc) :
    (req.authHeader = none →
      runAuthTok env req handler s = (mkResp 401 "Unauthorized, no token", s)) ∧
    (∀ h, req.authHeader = some h → startsWithBearer h = false →
      runAuthTok env req handler s = (mkResp 401 "Unauthorized, no token", s)) ∧
    (∀ h, req.authHeader = some h → startsWithBearer h = true →
      env.verify (extractToken h) = none →
      runAuthTok env req handler s = (mkResp 401 "Unauthorized, invalid token", s)) ∧
    (req.authHeader = none →
      runAuthJWT env req handler s = (mkResp 401 "Unauthorized", s)) ∧
    (∀ h, req.authHeader = some h → env.verify (extractToken h) = none →
      runAuthJWT env req handler s = (mkResp 403 "Forbidden", s)) := by
  refine ⟨?_, ?_, ?_, ?_, ?_⟩
  · intro hnone
    simp [runAuthTok, verifyToken, hnone]
  · intro h hsome hbear
    simp [runAuthTok, verifyToken, hsome, hbear]
  · intro h hsome hbear hrej
    simp [runAuthTok, verifyToken, hsome, hbear, hrej]
  · intro hnone
    simp [runAuthJWT, verifyJWT, hnone]
  · intro h hsome hrej
    simp [runAuthJWT, verifyJWT, hsome, hrej]

/-- Witness for the amended claim C1 at concrete inputs. -/
theorem c1_auth_failures_witness :
    runAuthTok ⟨fun _ => none, 0⟩ ⟨none, [], ""⟩
      (fun _ s => (mkResp 200 "ok", s)) [] = (mkResp 401 "Unauthorized, no token", []) ∧
    runAuthTok ⟨fun _ => none, 0⟩ ⟨some "Basic abc", [], ""⟩
      (fun _ s => (mkResp 200 "ok", s)) [] = (mkResp 401 "Unauthorized, no token", []) ∧
    runAuthTok ⟨fun _ => none, 0⟩ ⟨some "Bearer abc", [], ""⟩
      (fun _ s => (mkResp 200 "ok", s)) [] = (mkResp 401 "Unauthorized, invalid token", []) ∧
    runAuthJWT ⟨fun _ => none, 0⟩ ⟨none, [], ""⟩
      (fun _ s => (mkResp 200 "ok", s)) [] = (mkResp 401 "Unauthorized", []) ∧
    runAuthJWT ⟨fun _ => none, 0⟩ ⟨some "Bearer abc", [], ""⟩
      (fun _ s => (mkResp 200 "ok", s)) [] = (mkResp 403 "Forbidden", []) :=
  ⟨(c1_auth_failures ⟨fun _ => none, 0⟩ ⟨none, [], ""⟩
      (fun _ s => (mkResp 200 "ok", s)) []).1 rfl,
   (c1_auth_failures ⟨fun _ => none, 0⟩ ⟨some "Basic abc", [], ""⟩
      (fun _ s => (mkResp 200 "ok", s)) []).2.1 "Basic abc" rfl (by decide),
   (c1_auth_failures ⟨fun _ => none, 0⟩ ⟨some "Bearer abc", [], ""⟩
      (fun _ s => (mkResp 200 "ok", s)) []).2.2.1 "Bearer abc" rfl (by decide) rfl,
   (c1_auth_failures ⟨fun _ => none, 0⟩ ⟨none, [], ""⟩
      (fun _ s => (mkResp 200 "ok", s)) []).2.2.2.1 rfl,
   (c1_auth_failures ⟨fun _ => none, 0⟩ ⟨some "Bearer abc", [], ""⟩
      (fun _ s => (mkResp 200 "ok", s)) []).2.2.2.2 "Bearer abc" rfl rfl⟩

/-- The DELETE application route: verifyToken, then fetch the record,
404 when absent, 403 Forbidden when the requester is neither the
creator (the stored userEmail) nor carries the admin role claim, and
only then the deletion; a malformed identifier throws into the catch
block. -/
def deleteApplication (env : Env) (req : Request) (apps : List Doc) :
    Response × List Doc :=
  match verifyToken env req with
  | Except.error r => (r, apps)
  | Except.ok p =>
      if isValidObjectId req.param then
        match findOne apps (idMatch req.param) with
        | none => (mkResp 404 "Application not found", apps)
        | some a =>
            if getField a "userEmail" ≠ some (Value.str p.email) ∧
               p.role ≠ some "admin" then
              (mkResp 403 "Forbidden", apps)
            else (mkResp 200 "", (deleteOne apps (idMatch req.param)).1)
      else (mkResp 500 "Failed to delete application", apps)

/-- The DELETE blog route: verifyToken, verifyAgent, then fetch the
record, 404 when absent, 403 when the requester is not the author, and
only then the deletion. -/
def deleteBlog (env : Env) (req : Request) (users blogs : List Doc) :
    Response × List Doc :=
  match verifyToken env req with
  | Except.error r => (r, blogs)
  | Except.ok p =>
      match verifyAgent users p with
      | Except.error r => (r, blogs)
      | Except.ok _ =>
          if isValidObjectId req.param then
            match findOne blogs (idMatch req.param) with
            | none => (mkResp 404 "Blog not found", blogs)
            | some b =>
                if getField b "authorEmail" ≠ some (Value.str p.email) then
                  (mkResp 403 "Forbidden: Cannot delete blogs of others", blogs)
                else (mkResp 200 "Blog deleted successfully",
                      (deleteOne blogs (idMatch req.param)).1)
          else (mkResp 500 "Failed to delete blog", blogs)

/-- The PATCH assign route: guarded only by verifyJWT, it sets the
assigned agent and the Assigned status on the addressed application
with no ownership or role check at all, and sends the raw update
result. -/
def assignApplication (env : Env) (req : Request) (apps : List Doc) :
    Response × List Doc :=
  match verifyJWT env req with
  | Except.error r => (r, apps)
  | Except.ok _ =>
      if isValidObjectId req.param then
        let r := updateOne apps (idMatch req.param)
          [("assignedAgent", (getField req.body "agentEmail").getD (Value.str "")),
           ("status", Value.str "Assigned")]
        (mkResp 200 "", r.list)
      else (mkResp 500 "", apps)

/-- Claim C4 counterexample: the PATCH assign route is a mutating
request on an application record; an authenticated identity that is
neither the creator of the record nor an admin succeeds in mutating it
(status 200 and a changed store), where the claim requires 403 and an
unchanged record. -/
theorem c4_counterexample :
    (assignApplication ⟨fun _ => some ⟨"bob@example.com", none, none⟩, 0⟩
        ⟨some "Bearer bobtok", [("agentEmail", Value.str "x@y.z")], "aaaaaaaaaaaaaaaaaaaaaaaa"⟩
        [[("_id", Value.str "aaaaaaaaaaaaaaaaaaaaaaaa"),
          ("userEmail", Value.str "jane@example.com"),
          ("status", Value.str "pending")]]).1.status = 200 ∧
    (assignApplication ⟨fun _ => some ⟨"bob@example.com", none, none⟩, 0⟩
        ⟨some "Bearer bobtok", [("agentEmail", Value.str "x@y.z")], "aaaaaaaaaaaaaaaaaaaaaaaa"⟩
        [[("_id", Value.str "aaaaaaaaaaaaaaaaaaaaaaaa"),
          ("userEmail", Value.str "jane@example.com"),
          ("status", Value.str "pending")]]).2 ≠
      [[("_id", Value.str "aaaaaaaaaaaaaaaaaaaaaaaa"),
        ("userEmail", Value.str "jane@example.com"),
        ("status", Value.str "pending")]] ∧
    getField [("_id", Value.str "aaaaaaaaaaaaaaaaaaaaaaaa"),
              ("userEmail", Value.str "jane@example.com"),
              ("status", Value.str "pending")] "userEmail" ≠
      some (Value.str "bob@example.com") := by
  decide

/-- Claim C4 (amended): on the delete routes for applications and
blogs, the operation succeeds only when the authenticated identity is
the creator of the record or, for applications, carries the admin role
claim; otherwise the response is 403 Forbidden and the store is
unchanged, the ownership check running before the deletion. The
restriction to the delete routes is forced: the PATCH assign route
mutates applications with no ownership check. -/
theorem c4_delete_ownership (env : Env) (req : Request)
    (h : String) (p : Principal)
    (hhdr : req.authHeader = some h) (hbear : startsWithBearer h = true)
    (hver : env.verify (extractToken h) = some p) :
    (∀ (apps : List Doc) (a : Doc),
      isValidObjectId req.param = true →
      findOne apps (idMatch req.param) = some a →
      getField a "userEmail" ≠ some (Value.str p.email) →
      p.role ≠ some "admin" →
      deleteApplication env req apps = (mkResp 403 "Forbidden", apps)) ∧
    (∀ (apps : List Doc) (a : Doc),
      findOne apps (idMatch req.param) = some a →
      (deleteApplication env req apps).1.status = 200 →
      getField a "userEmail" = some (Value.str p.email) ∨ p.role = some "admin") ∧
    (∀ (users blogs : List Doc) (u b : Doc),
      findOne users (emailMatch p.email) = some u →
      getField u "role" = some (Value.str "agent") →
      isValidObjectId req.param = true →
      findOne blogs (idMatch req.param) = some b →
      getField b "authorEmail" ≠ some (Value.str p.email) →
      deleteBlog env req users blogs =
        (mkResp 403 "Forbidden: Cannot delete blogs of others", blogs)) ∧
    (∀ (users blogs : List Doc) (b : Doc),
      findOne blogs (idMatch req.param) = some b →
      (deleteBlog env req users blogs).1.status = 200 →
      getField b "authorEmail" = some (Value.str p.email)) := by
  refine ⟨?_, ?_, ?_, ?_⟩
  · intro apps a hid hfind hown hrole
    simp [deleteApplication, verifyToken, hhdr, hbear, hver, hid, hfind, hown, hrole]
  · intro apps a hfind hstat
    by_cases hid : isValidObjectId req.param = true
    · by_cases hown : getField a "userEmail" = some (Value.str p.email)
      · exact Or.inl hown
      · by_cases hrole : p.role = some "admin"
        · exact Or.inr hrole
        · exfalso
          simp [deleteApplication, verifyToken, hhdr, hbear, hver, hid, hfind,
            hown, hrole, mkResp] at hstat
    · exfalso
      simp [deleteApplication, verifyToken, hhdr, hbear, hver,
        Bool.of_not_eq_true hid, mkResp] at hstat
  · intro users blogs u b hu hrole hid hfind hown
    simp [deleteBlog, verifyToken, verifyAgent, verifyAgentWith,
      hhdr, hbear, hver, hu, hrole, hid, hfind, hown]
  · intro users blogs b hfind hstat
    by_cases hown : getField b "authorEmail" = some (Value.str p.email)
    · exact hown
    · exfalso
      rcases hu : findOne users (emailMatch p.email) with _ | u
      · simp [deleteBlog, verifyToken, verifyAgent, verifyAgentWith,
          hhdr, hbear, hver, hu, mkResp] at hstat
      · by_cases hrole : getField u "role" = some (Value.str "agent")
        · by_cases hid : isValidObjectId req.param = true
          · simp [deleteBlog, verifyToken, verifyAgent, verifyAgentWith,
              hhdr, hbear, hver, hu, hrole, hid, hfind, hown, mkResp] at hstat
          · simp [deleteBlog, verifyToken, verifyAgent, verifyAgentWith,
              hhdr, hbear, hver, hu, hrole, Bool.of_not_eq_true hid, mkResp] at hstat
        · simp [deleteBlog, verifyToken, verifyAgent, verifyAgentWith,
            hhdr, hbear, hver, hu, hrole, mkResp] at hstat

/-- Witness for the amended claim C4 at concrete inputs: a non-creator
non-admin requester is refused with 403 and the store is returned
unchanged, for an application and for a blog. -/
theorem c4_delete_ownership_witness :
    deleteApplication ⟨fun _ => some ⟨"bob@example.com", none, none⟩, 0⟩
        ⟨some "Bearer t", [], "aaaaaaaaaaaaaaaaaaaaaaaa"⟩
        [[("_id", Value.str "aaaaaaaaaaaaaaaaaaaaaaaa"),
          ("userEmail", Value.str "jane@example.com")]] =
      (mkResp 403 "Forbidden",
       [[("_id", Value.str "aaaaaaaaaaaaaaaaaaaaaaaa"),
         ("userEmail", Value.str "jane@example.com")]]) ∧
    deleteBlog ⟨fun _ => some ⟨"bob@example.com", none, none⟩, 0⟩
        ⟨some "Bearer t", [], "aaaaaaaaaaaaaaaaaaaaaaaa"⟩
        [[("email", Value.str "bob@example.com"), ("role", Value.str "agent")]]
        [[("_id", Value.str "aaaaaaaaaaaaaaaaaaaaaaaa"),
          ("authorEmail", Value.str "jane@example.com")]] =
      (mkResp 403 "Forbidden: Cannot delete blogs of others",
       [[("_id", Value.str "aaaaaaaaaaaaaaaaaaaaaaaa"),
         ("authorEmail", Value.str "jane@example.com")]]) :=
  ⟨(c4_delete_ownership ⟨fun _ => some ⟨"bob@example.com", none, none⟩, 0⟩
      ⟨some "Bearer t", [], "aaaaaaaaaaaaaaaaaaaaaaaa"⟩ "Bearer t"
      ⟨"bob@example.com", none, none⟩ rfl (by decide) rfl).1
      [[("_id", Value.str "aaaaaaaaaaaaaaaaaaaaaaaa"),
        ("userEmail", Value.str "jane@example.com")]]
      [("_id", Value.str "aaaaaaaaaaaaaaaaaaaaaaaa"),
       ("userEmail", Value.str "jane@example.com")]
      (by decide) (by decide) (by decide) (by decide),
   (c4_delete_ownership ⟨fun _ => some ⟨"bob@example.com", none, none⟩, 0⟩
      ⟨some "Bearer t", [], "aaaaaaaaaaaaaaaaaaaaaaaa"⟩ "Bearer t"
      ⟨"bob@example.com", none, none⟩ rfl (by decide) rfl).2.2.1
      [[("email", Value.str "bob@example.com"), ("role", Value.str "agent")]]
      [[("_id", Value.str "aaaaaaaaaaaaaaaaaaaaaaaa"),
        ("authorEmail", Value.str "jane@example.com")]]
      [("email", Value.str "bob@example.com"), ("role", Value.str "agent")]
      [("_id", Value.str "aaaaaaaaaaaaaaaaaaaaaaaa"),
       ("authorEmail", Value.str "jane@example.com")]
      (by decide) (by decide) (by decide) (by decide) (by decide)⟩

/-- The public POST subscribe handler: missing or falsy name or email
answers 400; an existing subscriber with the same email answers 409
Conflict; otherwise the new subscriber is stored and answered 201. -/
def postSubscribe (body : Doc) (now : Nat) (freshId : String)
    (subs : List Doc) : Response × List Doc :=
  if truthy (getField body "name") && truthy (getField body "email") then
    match findOne subs (fun d => decide (getField d "email" = getField body "email")) with
    | some _ => (mkResp 409 "This email is already subscribed", subs)
    | none =>
        let newSub : Doc :=
          [("name", (getField body "name").getD (Value.str "")),
           ("email", (getField body "email").getD (Value.str "")),
           ("subscribedAt", Value.time now),
           ("active", Value.bool true)]
        let ins := insertOne subs newSub freshId
        (⟨201, "Thank you for subscribing!", [], some ins.2⟩, ins.1)
  else (mkResp 400 "Name and email are required", subs)

/-- The POST agents route: verifyToken, then 400 on a missing name,
email or district, 409 Conflict on an existing request with the same
email, otherwise the request is stored with status pending, the server
creation time and the requester email, and answered 201. -/
def postAgents (env : Env) (req : Request) (freshId : String)
    (agents : List Doc) : Response × List Doc :=
  match verifyToken env req with
  | Except.error r => (r, agents)
  | Except.ok p =>
      if truthy (getField req.body "name") && truthy (getField req.body "email") &&
         truthy (getField req.body "district") then
        match findOne agents (fun a => decide (getField a "email" = getField req.body "email")) with
        | some _ => (mkResp 409 "You have already submitted an agent request", agents)
        | none =>
            let agentData :=
              setField (setField (setField req.body
                "status" (Value.str "pending"))
                "created_at" (Value.time env.now))
                "requestedBy" (Value.str p.email)
            let ins := insertOne agents agentData freshId
            (⟨201, "Agent request submitted", [], some ins.2⟩, ins.1)
      else (mkResp 400 "Name, Email & District are required", agents)

/-- Claim C5 counterexample: a subscribe request missing its name is
answered 400, a status outside the five-class taxonomy the claim fixes
as exhaustive. -/
theorem c5_counterexample :
    (postSubscribe [("email", Value.str "a@b.c")] 0 "aaaaaaaaaaaaaaaaaaaaaaaa" []).1.status = 400 ∧
    (400 : Nat) ∉ ([401, 403, 404, 500, 409] : List Nat) ∧
    (postSubscribe [("email", Value.str "a@b.c")] 0 "aaaaaaaaaaaaaaaaaaaaaaaa" []).2 = [] := by
  decide

/- The claim C5 theorem and its witness appear at the end of the file,
after every modeled handler, since the amended taxonomy claim confines
the response statuses of each of them. -/

/-- Validity test of a requested agent status value, the inclusion
check of the PATCH agent-status handler. -/
def statusValid (o : Option Value) : Bool :=
  decide (o = some (Value.str "approved")) ||
  decide (o = some (Value.str "pending")) ||
  decide (o = some (Value.str "disapproved"))

/-- The PATCH agent-status route (no auth middleware in the source): a
status value outside the allowed set answers 400 before anything else;
then the ObjectId coercion (500 via catch when malformed), then the
update, 404 when nothing was modified. -/
def patchAgentStatus (req : Request) (agents : List Doc) :
    Response × List Doc :=
  if statusValid (getField req.body "status") then
    if isValidObjectId req.param then
      let sv := (getField req.body "status").getD (Value.str "")
      let r := updateOne agents (idMatch req.param) [("status", sv)]
      if r.modified = 1 then (mkResp 200 "Agent status updated", r.list)
      else (mkResp 404 "Agent not found", r.list)
    else (mkResp 500 "Failed to update agent", agents)
  else (mkResp 400 "Invalid status value", agents)

/-- An agent record carries one of the three enumerated statuses. -/
def statusOk (d : Doc) : Prop :=
  getField d "status" = some (Value.str "pending") ∨
  getField d "status" = some (Value.str "approved") ∨
  getField d "status" = some (Value.str "disapproved")

/-- updateOne preserves any predicate preserved by the set document. -/
theorem updateOne_preserves (P : Doc → Prop) (pred : Doc → Bool) (sets : Doc)
    (hset : ∀ d, P d → P (setFields d sets)) :
    ∀ ds : List Doc, (∀ a ∈ ds, P a) →
      ∀ a ∈ (updateOne ds pred sets).list, P a := by
  intro ds
  induction ds with
  | nil => intro _ a ha; simp [updateOne] at ha
  | cons d rest ih =>
      intro hall a ha
      by_cases hp : pred d = true
      · simp [updateOne, hp] at ha
        rcases ha with ha | ha
        · exact ha ▸ hset d (hall d (by simp))
        · exact hall a (by simp [ha])
      · simp [updateOne, Bool.of_not_eq_true hp] at ha
        rcases ha with ha | ha
        · exact ha ▸ hall d (by simp)
        · exact ih (fun x hx => hall x (by simp [hx])) a ha

/-- Reading the first field assigned by setField. -/
theorem getField_setField_same (d : Doc) (k : String) (v : Value) :
    getField (setField d k v) k = some v := by
  induction d with
  | nil => simp [setField, getField]
  | cons kv rest ih =>
      by_cases h : kv.1 = k
      · simp [setField, h, getField]
      · simp [setField, h, getField, ih]

/-- Reading a field other than the one just assigned by setField. -/
theorem getField_setField_ne (d : Doc) (k k2 : String) (v : Value)
    (h : k2 ≠ k) : getField (setField d k2 v) k = getField d k := by
  induction d with
  | nil => simp [setField, getField, h]
  | cons kv rest ih =>
      by_cases h0 : kv.1 = k2
      · simp [setField, getField, h0, h, Ne.symm h]
      · by_cases h1 : kv.1 = k
        · simp [setField, getField, h0, h1, Ne.symm h]
        · simp [setField, getField, h0, h1, ih]

/-- A verifyToken failure always carries status 401. -/
theorem verifyToken_error_status (env : Env) (req : Request) (r : Response)
    (h : verifyToken env req = Except.error r) : r.status = 401 := by
  unfold verifyToken at h
  repeat' split at h
  all_goals
    first
    | (cases h; rfl)
    | exact Except.noConfusion h

/-- Membership in an insertOne result: an old document, or the inserted
document possibly extended with the fresh identifier. -/
theorem insertOne_mem (ds : List Doc) (d : Doc) (fid : String) :
    ∀ a ∈ (insertOne ds d fid).1,
      a ∈ ds ∨ a = d ∨ a = setField d "_id" (Value.str fid) := by
  intro a ha
  rcases hid : getField d "_id" with _ | v
  · simp only [insertOne, hid] at ha
    rcases List.mem_append.mp ha with h | h
    · exact Or.inl h
    · simp at h
      exact Or.inr (Or.inr h)
  · rcases v with s | n | b <;> simp only [insertOne, hid] at ha <;>
      rcases List.mem_append.mp ha with h | h <;>
      first
      | exact Or.inl h
      | (simp at h; exact Or.inr (Or.inl h))

/-- The agent record built by the POST agents handler stores status
pending whatever the request body held. -/
theorem agentData_status (body : Doc) (now : Nat) (em : String) :
    getField (setField (setField (setField body "status" (Value.str "pending"))
      "created_at" (Value.time now)) "requestedBy" (Value.str em)) "status" =
    some (Value.str "pending") := by
  rw [getField_setField_ne _ _ _ _ (by decide),
      getField_setField_ne _ _ _ _ (by decide),
      getField_setField_same]

/-- Claim C10: every agent record created or updated through the API
keeps its status within the enumerated set pending, approved,
disapproved; creation always stores pending; and a status update with
a value outside the set answers 400 and leaves the store unchanged. -/
theorem c10_agent_status_invariant (env : Env) (req : Request)
    (freshId : String) (agents : List Doc)
    (hinv : ∀ a ∈ agents, statusOk a) :
    (∀ a ∈ (postAgents env req freshId agents).2, statusOk a) ∧
    ((postAgents env req freshId agents).1.status = 201 →
      ∀ a ∈ (postAgents env req freshId agents).2, a ∉ agents →
        getField a "status" = some (Value.str "pending")) ∧
    (statusValid (getField req.body "status") = false →
      patchAgentStatus req agents = (mkResp 400 "Invalid status value", agents)) ∧
    (∀ a ∈ (patchAgentStatus req agents).2, statusOk a) := by
  refine ⟨?_, ?_, ?_, ?_⟩
  · rcases hv : verifyToken env req with r | p
    · simp only [postAgents, hv]
      exact hinv
    · simp only [postAgents, hv]
      by_cases hval : (truthy (getField req.body "name") &&
          truthy (getField req.body "email") &&
          truthy (getField req.body "district")) = true
      · rw [if_pos hval]
        rcases hdup : findOne agents
            (fun a => decide (getField a "email" = getField req.body "email")) with _ | a0
        · intro a ha
          rcases insertOne_mem agents _ freshId a ha with h | h | h
          · exact hinv a h
          · subst h
            exact Or.inl (agentData_status req.body env.now p.email)
          · subst h
            refine Or.inl ?_
            rw [getField_setField_ne _ _ _ _ (by decide)]
            exact agentData_status req.body env.now p.email
        · exact hinv
      · rw [if_neg hval]
        exact hinv
  · intro h201 a ha hnew
    rcases hv : verifyToken env req with r | p
    · simp only [postAgents, hv] at h201
      rw [verifyToken_error_status env req r hv] at h201
      exact absurd h201 (by decide)
    · simp only [postAgents, hv] at h201 ha
      by_cases hval : (truthy (getField req.body "name") &&
          truthy (getField req.body "email") &&
          truthy (getField req.body "district")) = true
      · rw [if_pos hval] at h201 ha
        rcases hdup : findOne agents
            (fun a => decide (getField a "email" = getField req.body "email")) with _ | a0
        · simp only [hdup] at ha
          rcases insertOne_mem agents _ freshId a ha with h | h | h
          · exact absurd h hnew
          · subst h
            exact agentData_status req.body env.now p.email
          · subst h
            rw [getField_setField_ne _ _ _ _ (by decide)]
            exact agentData_status req.body env.now p.email
        · simp only [hdup] at h201
          simp [mkResp] at h201
      · rw [if_neg hval] at h201
        simp [mkResp] at h201
  · intro h
    simp [patchAgentStatus, h]
  · by_cases hval : statusValid (getField req.body "status") = true
    · by_cases hid : isValidObjectId req.param = true
      · simp only [patchAgentStatus, hval, hid, if_true]
        have hset : ∀ d, statusOk d →
            statusOk (setFields d
              [("status", (getField req.body "status").getD (Value.str ""))]) := by
          intro d _
          show statusOk (setField d "status" ((getField req.body "status").getD (Value.str "")))
          by_cases h1 : getField req.body "status" = some (Value.str "approved")
          · rw [h1]
            exact Or.inr (Or.inl (getField_setField_same d "status" _))
          · by_cases h2 : getField req.body "status" = some (Value.str "pending")
            · rw [h2]
              exact Or.inl (getField_setField_same d "status" _)
            · by_cases h3 : getField req.body "status" = some (Value.str "disapproved")
              · rw [h3]
                exact Or.inr (Or.inr (getField_setField_same d "status" _))
              · exfalso
                unfold statusValid at hval
                simp [h1, h2, h3] at hval
        have hpres := updateOne_preserves statusOk (idMatch req.param)
          [("status", (getField req.body "status").getD (Value.str ""))] hset agents hinv
        by_cases hm : (updateOne agents (idMatch req.param)
            [("status", (getField req.body "status").getD (Value.str ""))]).modified = 1
        · rw [if_pos hm]
          exact hpres
        · rw [if_neg hm]
          exact hpres
      · simp only [patchAgentStatus, hval, if_true, hid]
        rw [if_neg (by simp [hid])]
        exact hinv
    · simp only [patchAgentStatus]
      rw [if_neg hval]
      exact hinv

/-- Witness for claim C10 at concrete inputs: an empty store satisfies
the invariant, a creation stores pending, and an invalid status update
answers 400 leaving the store unchanged. -/
theorem c10_agent_status_invariant_witness :
    (statusValid (getField [("status", Value.str "weird")] "status") = false →
      patchAgentStatus ⟨none, [("status", Value.str "weird")], "aaaaaaaaaaaaaaaaaaaaaaaa"⟩
        [[("_id", Value.str "aaaaaaaaaaaaaaaaaaaaaaaa"), ("status", Value.str "pending")]] =
      (mkResp 400 "Invalid status value",
       [[("_id", Value.str "aaaaaaaaaaaaaaaaaaaaaaaa"), ("status", Value.str "pending")]])) ∧
    ((postAgents ⟨fun _ => some ⟨"a@b.c", none, none⟩, 5⟩
        ⟨some "Bearer t",
         [("name", Value.str "A"), ("email", Value.str "a@b.c"),
          ("district", Value.str "D")], ""⟩ "bbbbbbbbbbbbbbbbbbbbbbbb" []).1.status = 201 →
      ∀ a ∈ (postAgents ⟨fun _ => some ⟨"a@b.c", none, none⟩, 5⟩
        ⟨some "Bearer t",
         [("name", Value.str "A"), ("email", Value.str "a@b.c"),
          ("district", Value.str "D")], ""⟩ "bbbbbbbbbbbbbbbbbbbbbbbb" []).2, a ∉ ([] : List Doc) →
        getField a "status" = some (Value.str "pending")) :=
  ⟨(c10_agent_status_invariant
      ⟨fun _ => some ⟨"a@b.c", none, none⟩, 5⟩
      ⟨none, [("status", Value.str "weird")], "aaaaaaaaaaaaaaaaaaaaaaaa"⟩
      "bbbbbbbbbbbbbbbbbbbbbbbb"
      [[("_id", Value.str "aaaaaaaaaaaaaaaaaaaaaaaa"), ("status", Value.str "pending")]]
      (by intro a ha; simp at ha; subst ha; exact Or.inl (by decide))).2.2.1,
   (c10_agent_status_invariant
      ⟨fun _ => some ⟨"a@b.c", none, none⟩, 5⟩
      ⟨some "Bearer t",
       [("name", Value.str "A"), ("email", Value.str "a@b.c"),
        ("district", Value.str "D")], ""⟩ "bbbbbbbbbbbbbbbbbbbbbbbb" []
      (by intro a ha; simp at ha)).2.1⟩

/-- The POST applications route: verifyToken, then the handler stamps
the body with the requester email, the pending status and the server
date, inserts it and answers 201 with the inserted identifier. -/
def postApplications (env : Env) (req : Request) (freshId : String)
    (apps : List Doc) : Response × List Doc :=
  match verifyToken env req with
  | Except.error r => (r, apps)
  | Except.ok p =>
      let application :=
        setField (setField (setField req.body
          "userEmail" (Value.str p.email))
          "status" (Value.str "pending"))
          "applicationDate" (Value.time env.now)
      let ins := insertOne apps application freshId
      (⟨201, "", [], some ins.2⟩, ins.1)

/-- The GET application-by-id route: verifyToken, ObjectId coercion
(500 via catch when malformed), 404 when absent, 403 when the requester
is neither the stored creator nor carries the admin role claim,
otherwise the record. -/
def getApplicationById (env : Env) (req : Request) (apps : List Doc) : Response :=
  match verifyToken env req with
  | Except.error r => r
  | Except.ok p =>
      if isValidObjectId req.param then
        match findOne apps (idMatch req.param) with
        | none => mkResp 404 "Application not found"
        | some a =>
            if getField a "userEmail" ≠ some (Value.str p.email) ∧
               p.role ≠ some "admin" then mkResp 403 "Forbidden"
            else ⟨200, "", [a], none⟩
      else mkResp 500 "Failed to fetch application"

/-- The application document stored by the POST applications handler:
the submitted body stamped with the requester email, the pending
status, the server date and the assigned identifier. -/
def appDocOf (p : Principal) (now : Nat) (body : Doc) (freshId : String) : Doc :=
  setField (setField (setField (setField body
    "userEmail" (Value.str p.email))
    "status" (Value.str "pending"))
    "applicationDate" (Value.time now))
    "_id" (Value.str freshId)

/-- find? over an append whose first part has no match. -/
theorem find?_append_none (l1 l2 : List Doc) (p : Doc → Bool)
    (h : l1.find? p = none) : (l1 ++ l2).find? p = l2.find? p := by
  induction l1 with
  | nil => simp
  | cons d rest ih =>
      by_cases hp : p d = true
      · rw [List.find?_cons_of_pos _ hp] at h
        exact absurd h (by simp)
      · rw [List.find?_cons_of_neg _ hp] at h
        simp only [List.cons_append]
        rw [List.find?_cons_of_neg _ hp]
        exact ih h

/-- Claim C7: round trip for applications: an authenticated creation
answers 201 with the fresh identifier; fetching that identifier with
the same token returns a record equal to the submitted body on every
field the server does not stamp, with the server-assigned pending
status, the server-assigned date and the requester email. -/
theorem c7_roundtrip (env : Env) (req : Request) (freshId : String)
    (apps : List Doc) (h : String) (p : Principal)
    (hhdr : req.authHeader = some h) (hbear : startsWithBearer h = true)
    (hver : env.verify (extractToken h) = some p)
    (hnoid : getField req.body "_id" = none)
    (hfid : isValidObjectId freshId = true)
    (hfresh : apps.find? (idMatch freshId) = none) :
    (postApplications env req freshId apps).1 = ⟨201, "", [], some freshId⟩ ∧
    (postApplications env req freshId apps).2 =
      apps ++ [appDocOf p env.now req.body freshId] ∧
    getApplicationById env ⟨req.authHeader, [], freshId⟩
        (postApplications env req freshId apps).2 =
      ⟨200, "", [appDocOf p env.now req.body freshId], none⟩ ∧
    getField (appDocOf p env.now req.body freshId) "status" =
      some (Value.str "pending") ∧
    getField (appDocOf p env.now req.body freshId) "applicationDate" =
      some (Value.time env.now) ∧
    getField (appDocOf p env.now req.body freshId) "userEmail" =
      some (Value.str p.email) ∧
    (∀ k, k ≠ "userEmail" → k ≠ "status" → k ≠ "applicationDate" → k ≠ "_id" →
      getField (appDocOf p env.now req.body freshId) k = getField req.body k) := by
  have hvt : verifyToken env req = Except.ok p := by
    simp [verifyToken, hhdr, hbear, hver]
  have happ : getField (setField (setField (setField req.body
      "userEmail" (Value.str p.email)) "status" (Value.str "pending"))
      "applicationDate" (Value.time env.now)) "_id" = none := by
    rw [getField_setField_ne _ _ _ _ (by decide),
        getField_setField_ne _ _ _ _ (by decide),
        getField_setField_ne _ _ _ _ (by decide)]
    exact hnoid
  have hout : postApplications env req freshId apps =
      (⟨201, "", [], some freshId⟩, apps ++ [appDocOf p env.now req.body freshId]) := by
    simp only [postApplications, hvt, insertOne, happ]
    rfl
  have howner : getField (appDocOf p env.now req.body freshId) "userEmail" =
      some (Value.str p.email) := by
    unfold appDocOf
    rw [getField_setField_ne _ _ _ _ (by decide),
        getField_setField_ne _ _ _ _ (by decide),
        getField_setField_ne _ _ _ _ (by decide),
        getField_setField_same]
  have hvt2 : verifyToken env ⟨req.authHeader, [], freshId⟩ = Except.ok p := by
    simp [verifyToken, hhdr, hbear, hver]
  have hD : idMatch freshId (appDocOf p env.now req.body freshId) = true := by
    simp [idMatch, appDocOf, getField_setField_same]
  refine ⟨by rw [hout], by rw [hout], ?_, ?_, ?_, howner, ?_⟩
  · rw [hout]
    simp only [getApplicationById, hvt2, hfid, if_true, findOne]
    rw [find?_append_none apps _ _ hfresh, List.find?_cons_of_pos _ hD]
    simp [howner]
  · unfold appDocOf
    rw [getField_setField_ne _ _ _ _ (by decide),
        getField_setField_ne _ _ _ _ (by decide),
        getField_setField_same]
  · unfold appDocOf
    rw [getField_setField_ne _ _ _ _ (by decide),
        getField_setField_same]
  · intro k hk1 hk2 hk3 hk4
    unfold appDocOf
    rw [getField_setField_ne _ _ _ _ (Ne.symm hk4),
        getField_setField_ne _ _ _ _ (Ne.symm hk3),
        getField_setField_ne _ _ _ _ (Ne.symm hk2),
        getField_setField_ne _ _ _ _ (Ne.symm hk1)]

/-- Witness for claim C7 at concrete inputs: creating an application
for the policy body and fetching the returned identifier with the same
token. -/
theorem c7_roundtrip_witness :
    (postApplications ⟨fun _ => some ⟨"jane@example.com", none, none⟩, 9⟩
        ⟨some "Bearer t", [("policyId", Value.str "X"), ("aname", Value.str "Jane Doe")], ""⟩
        "cccccccccccccccccccccccc" []).1 =
      ⟨201, "", [], some "cccccccccccccccccccccccc"⟩ ∧
    getApplicationById ⟨fun _ => some ⟨"jane@example.com", none, none⟩, 9⟩
        ⟨some "Bearer t", [], "cccccccccccccccccccccccc"⟩
        (postApplications ⟨fun _ => some ⟨"jane@example.com", none, none⟩, 9⟩
          ⟨some "Bearer t", [("policyId", Value.str "X"), ("aname", Value.str "Jane Doe")], ""⟩
          "cccccccccccccccccccccccc" []).2 =
      ⟨200, "",
       [appDocOf ⟨"jane@example.com", none, none⟩ 9
         [("policyId", Value.str "X"), ("aname", Value.str "Jane Doe")]
         "cccccccccccccccccccccccc"], none⟩ ∧
    getField (appDocOf ⟨"jane@example.com", none, none⟩ 9
        [("policyId", Value.str "X"), ("aname", Value.str "Jane Doe")]
        "cccccccccccccccccccccccc") "status" = some (Value.str "pending") ∧
    getField (appDocOf ⟨"jane@example.com", none, none⟩ 9
        [("policyId", Value.str "X"), ("aname", Value.str "Jane Doe")]
        "cccccccccccccccccccccccc") "aname" =
      getField [("policyId", Value.str "X"), ("aname", Value.str "Jane Doe")] "aname" :=
  ⟨(c7_roundtrip ⟨fun _ => some ⟨"jane@example.com", none, none⟩, 9⟩
      ⟨some "Bearer t", [("policyId", Value.str "X"), ("aname", Value.str "Jane Doe")], ""⟩
      "cccccccccccccccccccccccc" [] "Bearer t" ⟨"jane@example.com", none, none⟩
      rfl (by decide) rfl (by decide) (by decide) rfl).1,
   (c7_roundtrip ⟨fun _ => some ⟨"jane@example.com", none, none⟩, 9⟩
      ⟨some "Bearer t", [("policyId", Value.str "X"), ("aname", Value.str "Jane Doe")], ""⟩
      "cccccccccccccccccccccccc" [] "Bearer t" ⟨"jane@example.com", none, none⟩
      rfl (by decide) rfl (by decide) (by decide) rfl).2.2.1,
   (c7_roundtrip ⟨fun _ => some ⟨"jane@example.com", none, none⟩, 9⟩
      ⟨some "Bearer t", [("policyId", Value.str "X"), ("aname", Value.str "Jane Doe")], ""⟩
      "cccccccccccccccccccccccc" [] "Bearer t" ⟨"jane@example.com", none, none⟩
      rfl (by decide) rfl (by decide) (by decide) rfl).2.2.2.1,
   (c7_roundtrip ⟨fun _ => some ⟨"jane@example.com", none, none⟩, 9⟩
      ⟨some "Bearer t", [("policyId", Value.str "X"), ("aname", Value.str "Jane Doe")], ""⟩
      "cccccccccccccccccccccccc" [] "Bearer t" ⟨"jane@example.com", none, none⟩
      rfl (by decide) rfl (by decide) (by decide) rfl).2.2.2.2.2.2 "aname"
      (by decide) (by decide) (by decide) (by decide)⟩

/-- The role-defaulted profile document of the POST users handler: the
body with role defaulted to user when the submitted role is falsy. -/
def userDataOf (body : Doc) : Doc :=
  if truthy (getField body "role") then body
  else setField body "role" (Value.str "user")

/-- The email filter of the profile upsert, phrased on the submitted
body. -/
def usersEmailPred (body : Doc) (u : Doc) : Bool :=
  decide (getField u "email" = getField body "email")

/-- The POST users handler: 400 on a missing email or name, otherwise
the role-defaulted profile is upserted on the email key and answered
200 with the data. -/
def postUsers (body : Doc) (users : List Doc) : Response × List Doc :=
  if truthy (getField body "email") && truthy (getField body "name") then
    let userData := userDataOf body
    (⟨200, "", [userData], none⟩,
     upsertOne users
       (fun u => decide (getField u "email" = getField userData "email")) userData)
  else (mkResp 400 "Name and Email are required", users)

/-- Setting a field to its current value leaves the document
unchanged. -/
theorem setField_eq_self (d : Doc) (k : String) (v : Value)
    (h : getField d k = some v) : setField d k v = d := by
  induction d with
  | nil => simp [getField] at h
  | cons kv rest ih =>
      obtain ⟨k0, v0⟩ := kv
      by_cases h0 : k0 = k
      · simp only [getField, if_pos h0] at h
        injection h with h2
        simp [setField, if_pos h0, h0, h2]
      · simp only [getField, if_neg h0] at h
        simp [setField, if_neg h0, ih h]

/-- A readable field is a present key. -/
theorem getField_isSome_mem (d : Doc) (k : String) (v : Value)
    (h : getField d k = some v) : k ∈ d.map Prod.fst := by
  induction d with
  | nil => simp [getField] at h
  | cons kv rest ih =>
      obtain ⟨k0, v0⟩ := kv
      by_cases h0 : k0 = k
      · simp [h0]
      · simp only [getField, if_neg h0] at h
        simp [ih h]

/-- A truthy field value is present. -/
theorem truthy_isSome (o : Option Value) (h : truthy o = true) :
    ∃ v, o = some v := by
  rcases o with _ | v
  · simp [truthy] at h
  · exact ⟨v, rfl⟩

/-- setFields does not touch keys outside its set document. -/
theorem getField_setFields_not_mem (s : Doc) (d : Doc) (k : String)
    (h : k ∉ s.map Prod.fst) :
    getField (setFields d s) k = getField d k := by
  induction s generalizing d with
  | nil => rfl
  | cons kv rest ih =>
      simp only [List.map_cons, List.mem_cons] at h
      push_neg at h
      show getField (setFields (setField d kv.1 kv.2) rest) k = getField d k
      rw [ih _ h.2, getField_setField_ne _ _ _ _ (Ne.symm h.1)]

/-- setFields writes exactly its set document on the keys of the set
document, when those keys are distinct. -/
theorem getField_setFields_mem (s : Doc) (d : Doc) (k : String)
    (hnd : (s.map Prod.fst).Nodup) (h : k ∈ s.map Prod.fst) :
    getField (setFields d s) k = getField s k := by
  induction s generalizing d with
  | nil => simp at h
  | cons kv rest ih =>
      simp only [List.map_cons, List.nodup_cons] at hnd
      show getField (setFields (setField d kv.1 kv.2) rest) k = getField (kv :: rest) k
      by_cases h0 : k = kv.1
      · subst h0
        rw [getField_setFields_not_mem rest _ _ hnd.1, getField_setField_same]
        simp [getField]
      · simp only [List.map_cons, List.mem_cons] at h
        rcases h with h | h
        · exact absurd h h0
        · rw [ih _ hnd.2 h]
          simp [getField, show ¬kv.1 = k from fun hx => h0 hx.symm]

/-- Replaying a set document with distinct keys changes nothing. -/
theorem setFields_idem (s : Doc) (d : Doc) (hnd : (s.map Prod.fst).Nodup) :
    setFields (setFields d s) s = setFields d s := by
  induction s generalizing d with
  | nil => rfl
  | cons kv rest ih =>
      simp only [List.map_cons, List.nodup_cons] at hnd
      show setFields (setField (setFields (setField d kv.1 kv.2) rest) kv.1 kv.2) rest =
        setFields (setField d kv.1 kv.2) rest
      have hcur : getField (setFields (setField d kv.1 kv.2) rest) kv.1 = some kv.2 := by
        rw [getField_setFields_not_mem rest _ _ hnd.1, getField_setField_same]
      rw [setField_eq_self _ _ _ hcur]
      exact ih _ hnd.2

/-- setField keeps the key list when the key is already present. -/
theorem keys_setField_mem (d : Doc) (k : String) (v : Value)
    (h : k ∈ d.map Prod.fst) :
    (setField d k v).map Prod.fst = d.map Prod.fst := by
  induction d with
  | nil => simp at h
  | cons kv rest ih =>
      by_cases h0 : kv.1 = k
      · simp [setField, if_pos h0, h0]
      · simp only [List.map_cons, List.mem_cons] at h
        rcases h with h | h
        · exact absurd h.symm h0
        · simp [setField, if_neg h0, ih h]

/-- setField appends an absent key at the end of the key list. -/
theorem keys_setField_not_mem (d : Doc) (k : String) (v : Value)
    (h : k ∉ d.map Prod.fst) :
    (setField d k v).map Prod.fst = d.map Prod.fst ++ [k] := by
  induction d with
  | nil => simp [setField]
  | cons kv rest ih =>
      simp only [List.map_cons, List.mem_cons] at h
      push_neg at h
      by_cases h0 : kv.1 = k
      · exact absurd h0.symm h.1
      · simp [setField, if_neg h0, ih h.2]

/-- setField preserves distinctness of keys. -/
theorem nodup_keys_setField (d : Doc) (k : String) (v : Value)
    (h : (d.map Prod.fst).Nodup) : ((setField d k v).map Prod.fst).Nodup := by
  by_cases hm : k ∈ d.map Prod.fst
  · rw [keys_setField_mem d k v hm]
    exact h
  · rw [keys_setField_not_mem d k v hm, List.nodup_append]
    exact ⟨h, List.nodup_singleton k,
      fun a ha hb => by simp at hb; exact hm (hb ▸ ha)⟩

/-- The role default does not touch the email field. -/
theorem userDataOf_email (body : Doc) :
    getField (userDataOf body) "email" = getField body "email" := by
  unfold userDataOf
  by_cases h : truthy (getField body "role") = true
  · rw [if_pos h]
  · rw [if_neg h, getField_setField_ne _ _ _ _ (by decide)]

/-- The role default keeps the keys distinct. -/
theorem nodup_keys_userDataOf (body : Doc) (h : (body.map Prod.fst).Nodup) :
    ((userDataOf body).map Prod.fst).Nodup := by
  unfold userDataOf
  by_cases ht : truthy (getField body "role") = true
  · rw [if_pos ht]
    exact h
  · rw [if_neg ht]
    exact nodup_keys_setField body "role" (Value.str "user") h

/-- A truthy submitted email is a key of the role-defaulted profile. -/
theorem email_mem_keys_userDataOf (body : Doc)
    (he : truthy (getField body "email") = true) :
    "email" ∈ (userDataOf body).map Prod.fst := by
  obtain ⟨v, hv⟩ := truthy_isSome _ he
  exact getField_isSome_mem _ _ v (by rw [userDataOf_email]; exact hv)

/-- An upsert on a store holding at most one match leaves exactly one
match. -/
theorem upsertOne_countP (ds : List Doc) (pred : Doc → Bool) (s : Doc)
    (hstab : ∀ d, pred (setFields d s) = true)
    (h1 : ds.countP pred ≤ 1) :
    (upsertOne ds pred s).countP pred = 1 := by
  induction ds with
  | nil => simp [upsertOne, List.countP_cons, hstab]
  | cons d rest ih =>
      by_cases hp : pred d = true
      · rw [List.countP_cons_of_pos _ _ hp] at h1
        have h0 : rest.countP pred = 0 := by omega
        simp only [upsertOne, if_pos hp]
        rw [List.countP_cons_of_pos _ _ (hstab d), h0]
      · rw [List.countP_cons_of_neg _ _ hp] at h1
        simp only [upsertOne, if_neg hp]
        rw [List.countP_cons_of_neg _ _ hp]
        exact ih h1

/-- Upserting the same set document twice equals upserting it once. -/
theorem upsertOne_idem (ds : List Doc) (pred : Doc → Bool) (s : Doc)
    (hstab : ∀ d, pred (setFields d s) = true)
    (hidem : ∀ d, setFields (setFields d s) s = setFields d s) :
    upsertOne (upsertOne ds pred s) pred s = upsertOne ds pred s := by
  induction ds with
  | nil => simp [upsertOne, hstab, hidem]
  | cons d rest ih =>
      by_cases hp : pred d = true
      · simp only [upsertOne, if_pos hp]
        simp [upsertOne, hstab, hidem]
      · simp only [upsertOne, if_neg hp]
        rw [ih]

/-- The first match after an upsert is a document rewritten by the set
document. -/
theorem upsertOne_find_shape (ds : List Doc) (pred : Doc → Bool) (s : Doc) (r : Doc)
    (hstab : ∀ d, pred (setFields d s) = true)
    (hfind : (upsertOne ds pred s).find? pred = some r) :
    ∃ d0, r = setFields d0 s := by
  induction ds with
  | nil =>
      simp only [upsertOne] at hfind
      rw [List.find?_cons_of_pos _ (hstab [])] at hfind
      exact ⟨[], (Option.some.inj hfind).symm⟩
  | cons d rest ih =>
      by_cases hp : pred d = true
      · simp only [upsertOne, if_pos hp] at hfind
        rw [List.find?_cons_of_pos _ (hstab d)] at hfind
        exact ⟨d, (Option.some.inj hfind).symm⟩
      · simp only [upsertOne, if_neg hp] at hfind
        rw [List.find?_cons_of_neg _ hp] at hfind
        exact ih hfind

/-- The POST users handler on a valid body. -/
theorem postUsers_eq (body : Doc) (users : List Doc)
    (hemail : truthy (getField body "email") = true)
    (hname : truthy (getField body "name") = true) :
    postUsers body users =
      (⟨200, "", [userDataOf body], none⟩,
       upsertOne users (usersEmailPred body) (userDataOf body)) := by
  have hpredeq : (fun u => decide (getField u "email" = getField (userDataOf body) "email")) =
      usersEmailPred body := by
    funext u
    unfold usersEmailPred
    rw [userDataOf_email]
  simp only [postUsers, hemail, hname, Bool.and_self, if_true]
  rw [hpredeq]

/-- Claim C8: idempotence of the profile upsert: submitting the same
valid profile body twice leaves the store of the first submission
unchanged, with exactly one record matching the submitted email, and
that record carries every field of the role-defaulted submitted
profile. -/
theorem c8_profile_upsert_idempotent (body : Doc) (users : List Doc)
    (hnodup : (body.map Prod.fst).Nodup)
    (hemail : truthy (getField body "email") = true)
    (hname : truthy (getField body "name") = true)
    (hunique : users.countP (usersEmailPred body) ≤ 1) :
    (postUsers body ((postUsers body users).2)).2 = (postUsers body users).2 ∧
    ((postUsers body users).2).countP (usersEmailPred body) = 1 ∧
    (∀ r, ((postUsers body users).2).find? (usersEmailPred body) = some r →
      ∀ k, k ∈ (userDataOf body).map Prod.fst →
        getField r k = getField (userDataOf body) k) := by
  have hkeys := nodup_keys_userDataOf body hnodup
  have hmem := email_mem_keys_userDataOf body hemail
  have hstab : ∀ d, usersEmailPred body (setFields d (userDataOf body)) = true := by
    intro d
    unfold usersEmailPred
    rw [getField_setFields_mem _ _ _ hkeys hmem, userDataOf_email]
    simp
  have hidem : ∀ d, setFields (setFields d (userDataOf body)) (userDataOf body) =
      setFields d (userDataOf body) := fun d => setFields_idem _ d hkeys
  refine ⟨?_, ?_, ?_⟩
  · rw [postUsers_eq body users hemail hname, postUsers_eq body _ hemail hname]
    exact upsertOne_idem users _ _ hstab hidem
  · rw [postUsers_eq body users hemail hname]
    exact upsertOne_countP users _ _ hstab hunique
  · intro r hr k hk
    rw [postUsers_eq body users hemail hname] at hr
    obtain ⟨d0, hd0⟩ := upsertOne_find_shape users _ _ r hstab hr
    subst hd0
    exact getField_setFields_mem _ _ _ hkeys hk

/-- Witness for claim C8 at concrete inputs: upserting the same profile
twice from an empty store. -/
theorem c8_profile_upsert_idempotent_witness :
    (postUsers [("email", Value.str "a@b.c"), ("name", Value.str "Alice")]
        ((postUsers [("email", Value.str "a@b.c"), ("name", Value.str "Alice")] []).2)).2 =
      (postUsers [("email", Value.str "a@b.c"), ("name", Value.str "Alice")] []).2 ∧
    ((postUsers [("email", Value.str "a@b.c"), ("name", Value.str "Alice")] []).2).countP
        (usersEmailPred [("email", Value.str "a@b.c"), ("name", Value.str "Alice")]) = 1 :=
  ⟨(c8_profile_upsert_idempotent
      [("email", Value.str "a@b.c"), ("name", Value.str "Alice")] []
      (by decide) (by decide) (by decide) (by decide)).1,
   (c8_profile_upsert_idempotent
      [("email", Value.str "a@b.c"), ("name", Value.str "Alice")] []
      (by decide) (by decide) (by decide) (by decide)).2.1⟩

/-- The author display name stored by the POST blogs handler: the name
claim of the token when truthy, else the token email. -/
def authorNameOf (p : Principal) : String :=
  match p.name with
  | some n => if n.data.isEmpty then p.email else n
  | none => p.email

/-- The blog document stored by the POST blogs handler: the submitted
body overwritten with the token author email, the token author name,
the server publish date and the assigned identifier. -/
def blogDocOf (p : Principal) (now : Nat) (fid : String) (body : Doc) : Doc :=
  setField (setField (setField (setField body
    "authorEmail" (Value.str p.email))
    "authorName" (Value.str (authorNameOf p)))
    "publishDate" (Value.time now))
    "_id" (Value.str fid)

/-- The POST blogs route: verifyToken, verifyAgent, then the handler
overwrites the author email, author name and publish date of the body
from the verified token and the server clock before inserting. -/
def postBlogs (env : Env) (req : Request) (users : List Doc) (freshId : String)
    (blogs : List Doc) : Response × List Doc :=
  match verifyToken env req with
  | Except.error r => (r, blogs)
  | Except.ok p =>
      match verifyAgent users p with
      | Except.error r => (r, blogs)
      | Except.ok _ =>
          let blog :=
            setField (setField (setField req.body
              "authorEmail" (Value.str p.email))
              "authorName" (Value.str (authorNameOf p)))
              "publishDate" (Value.time env.now)
          let ins := insertOne blogs blog freshId
          (⟨201, "", [], some ins.2⟩, ins.1)

/-- The stored blog carries the token email as author email. -/
theorem blogDocOf_authorEmail (p : Principal) (now : Nat) (fid : String) (body : Doc) :
    getField (blogDocOf p now fid body) "authorEmail" = some (Value.str p.email) := by
  unfold blogDocOf
  rw [getField_setField_ne _ _ _ _ (by decide),
      getField_setField_ne _ _ _ _ (by decide),
      getField_setField_ne _ _ _ _ (by decide),
      getField_setField_same]

/-- The stored blog carries the token name as author name. -/
theorem blogDocOf_authorName (p : Principal) (now : Nat) (fid : String) (body : Doc) :
    getField (blogDocOf p now fid body) "authorName" =
      some (Value.str (authorNameOf p)) := by
  unfold blogDocOf
  rw [getField_setField_ne _ _ _ _ (by decide),
      getField_setField_ne _ _ _ _ (by decide),
      getField_setField_same]

/-- The stored blog carries the server clock as publish date. -/
theorem blogDocOf_publishDate (p : Principal) (now : Nat) (fid : String) (body : Doc) :
    getField (blogDocOf p now fid body) "publishDate" = some (Value.time now) := by
  unfold blogDocOf
  rw [getField_setField_ne _ _ _ _ (by decide), getField_setField_same]

/-- The stored blog carries the assigned identifier. -/
theorem blogDocOf_id (p : Principal) (now : Nat) (fid : String) (body : Doc) :
    getField (blogDocOf p now fid body) "_id" = some (Value.str fid) := by
  unfold blogDocOf
  rw [getField_setField_same]

/-- Every other field of the stored blog is the submitted one. -/
theorem blogDocOf_other (p : Principal) (now : Nat) (fid : String) (body : Doc)
    (k : String) (h1 : k ≠ "authorEmail") (h2 : k ≠ "authorName")
    (h3 : k ≠ "publishDate") (h4 : k ≠ "_id") :
    getField (blogDocOf p now fid body) k = getField body k := by
  unfold blogDocOf
  rw [getField_setField_ne _ _ _ _ (Ne.symm h4),
      getField_setField_ne _ _ _ _ (Ne.symm h3),
      getField_setField_ne _ _ _ _ (Ne.symm h2),
      getField_setField_ne _ _ _ _ (Ne.symm h1)]

/-- Claim C9: the stored author identity of a posted blog comes only
from the verified token: the stored record carries the token email as
author email, the token name as author name and the server clock as
publish date whatever the body submitted; and two accepted bodies that
agree outside the author and date fields store field-for-field
identical blog documents, so authorship cannot be spoofed through the
request body. -/
theorem c9_author_from_token (env : Env) (users blogs : List Doc)
    (h : String) (p : Principal) (u : Doc) (freshId : String)
    (hhdr : startsWithBearer h = true)
    (hver : env.verify (extractToken h) = some p)
    (hu : findOne users (emailMatch p.email) = some u)
    (hrole : getField u "role" = some (Value.str "agent")) :
    (∀ body : Doc, getField body "_id" = none →
      (postBlogs env ⟨some h, body, ""⟩ users freshId blogs).2 =
        blogs ++ [blogDocOf p env.now freshId body]) ∧
    (∀ body : Doc,
      getField (blogDocOf p env.now freshId body) "authorEmail" =
        some (Value.str p.email) ∧
      getField (blogDocOf p env.now freshId body) "authorName" =
        some (Value.str (authorNameOf p)) ∧
      getField (blogDocOf p env.now freshId body) "publishDate" =
        some (Value.time env.now)) ∧
    (∀ b1 b2 : Doc,
      (∀ k, k ≠ "authorEmail" → k ≠ "authorName" → k ≠ "publishDate" → k ≠ "_id" →
        getField b1 k = getField b2 k) →
      ∀ k, getField (blogDocOf p env.now freshId b1) k =
        getField (blogDocOf p env.now freshId b2) k) := by
  have hvt : ∀ body : Doc, verifyToken env ⟨some h, body, ""⟩ = Except.ok p := by
    intro body
    simp [verifyToken, hhdr, hver]
  have hva : verifyAgent users p = Except.ok () := by
    simp [verifyAgent, verifyAgentWith, hu, hrole]
  refine ⟨?_, ?_, ?_⟩
  · intro body hnoid
    have hb : getField (setField (setField (setField body
        "authorEmail" (Value.str p.email))
        "authorName" (Value.str (authorNameOf p)))
        "publishDate" (Value.time env.now)) "_id" = none := by
      rw [getField_setField_ne _ _ _ _ (by decide),
          getField_setField_ne _ _ _ _ (by decide),
          getField_setField_ne _ _ _ _ (by decide)]
      exact hnoid
    simp only [postBlogs, hvt body, hva, insertOne, hb]
    rfl
  · intro body
    exact ⟨blogDocOf_authorEmail p env.now freshId body,
           blogDocOf_authorName p env.now freshId body,
           blogDocOf_publishDate p env.now freshId body⟩
  · intro b1 b2 hagree k
    by_cases h1 : k = "_id"
    · subst h1
      rw [blogDocOf_id, blogDocOf_id]
    · by_cases h2 : k = "publishDate"
      · subst h2
        rw [blogDocOf_publishDate, blogDocOf_publishDate]
      · by_cases h3 : k = "authorName"
        · subst h3
          rw [blogDocOf_authorName, blogDocOf_authorName]
        · by_cases h4 : k = "authorEmail"
          · subst h4
            rw [blogDocOf_authorEmail, blogDocOf_authorEmail]
          · rw [blogDocOf_other p env.now freshId b1 k h4 h3 h2 h1,
                blogDocOf_other p env.now freshId b2 k h4 h3 h2 h1]
            exact hagree k h4 h3 h2 h1

/-- Witness for claim C9 at concrete inputs: two bodies differing only
in their claimed author fields store the same author identity. -/
theorem c9_author_from_token_witness :
    (postBlogs ⟨fun _ => some ⟨"agt@x.y", some "Ann", none⟩, 4⟩
        ⟨some "Bearer t", [("title", Value.str "T"),
          ("authorEmail", Value.str "fake@x.y")], ""⟩
        [[("email", Value.str "agt@x.y"), ("role", Value.str "agent")]]
        "dddddddddddddddddddddddd" []).2 =
      [blogDocOf ⟨"agt@x.y", some "Ann", none⟩ 4 "dddddddddddddddddddddddd"
        [("title", Value.str "T"), ("authorEmail", Value.str "fake@x.y")]] ∧
    getField (blogDocOf ⟨"agt@x.y", some "Ann", none⟩ 4 "dddddddddddddddddddddddd"
        [("title", Value.str "T"), ("authorEmail", Value.str "fake@x.y")])
        "authorEmail" = some (Value.str "agt@x.y") ∧
    getField (blogDocOf ⟨"agt@x.y", some "Ann", none⟩ 4 "dddddddddddddddddddddddd"
        [("title", Value.str "T"), ("authorEmail", Value.str "fake@x.y")])
        "title" =
      getField (blogDocOf ⟨"agt@x.y", some "Ann", none⟩ 4 "dddddddddddddddddddddddd"
        [("title", Value.str "T"), ("authorEmail", Value.str "real@x.y")])
        "title" :=
  ⟨(c9_author_from_token ⟨fun _ => some ⟨"agt@x.y", some "Ann", none⟩, 4⟩
      [[("email", Value.str "agt@x.y"), ("role", Value.str "agent")]] []
      "Bearer t" ⟨"agt@x.y", some "Ann", none⟩
      [("email", Value.str "agt@x.y"), ("role", Value.str "agent")]
      "dddddddddddddddddddddddd" (by decide) rfl (by decide) (by decide)).1
      [("title", Value.str "T"), ("authorEmail", Value.str "fake@x.y")] (by decide),
   ((c9_author_from_token ⟨fun _ => some ⟨"agt@x.y", some "Ann", none⟩, 4⟩
      [[("email", Value.str "agt@x.y"), ("role", Value.str "agent")]] []
      "Bearer t" ⟨"agt@x.y", some "Ann", none⟩
      [("email", Value.str "agt@x.y"), ("role", Value.str "agent")]
      "dddddddddddddddddddddddd" (by decide) rfl (by decide) (by decide)).2.1
      [("title", Value.str "T"), ("authorEmail", Value.str "fake@x.y")]).1,
   (c9_author_from_token ⟨fun _ => some ⟨"agt@x.y", some "Ann", none⟩, 4⟩
      [[("email", Value.str "agt@x.y"), ("role", Value.str "agent")]] []
      "Bearer t" ⟨"agt@x.y", some "Ann", none⟩
      [("email", Value.str "agt@x.y"), ("role", Value.str "agent")]
      "dddddddddddddddddddddddd" (by decide) rfl (by decide) (by decide)).2.2
      [("title", Value.str "T"), ("authorEmail", Value.str "fake@x.y")]
      [("title", Value.str "T"), ("authorEmail", Value.str "real@x.y")]
      (by
        intro k h4 _ _ _
        by_cases ht : "title" = k
        · simp [getField, ht]
        · simp [getField, ht, show ¬"authorEmail" = k from fun hx => h4 hx.symm])
      "title"⟩

/-- A verifyJWT failure carries status 401 (no header) or 403
(rejected token). -/
theorem verifyJWT_error_status (env : Env) (req : Request) (r : Response)
    (h : verifyJWT env req = Except.error r) : r.status = 401 ∨ r.status = 403 := by
  unfold verifyJWT at h
  repeat' split at h
  all_goals
    first
    | (cases h; exact Or.inl rfl)
    | (cases h; exact Or.inr rfl)
    | exact Except.noConfusion h

/-- A verifyAgent failure on a successful store read carries 403. -/
theorem verifyAgent_error_status (users : List Doc) (p : Principal) (r : Response)
    (h : verifyAgent users p = Except.error r) : r.status = 403 := by
  unfold verifyAgent verifyAgentWith at h
  rcases hf : findOne users (emailMatch p.email) with _ | u <;> simp only [hf] at h
  · cases h; rfl
  · by_cases hrole : getField u "role" = some (Value.str "agent")
    · rw [if_pos hrole] at h
      exact Except.noConfusion h
    · rw [if_neg hrole] at h
      cases h; rfl

/-- Status confinement of the POST agents route. -/
theorem postAgents_status (env : Env) (req : Request) (freshId : String)
    (agents : List Doc) :
    (postAgents env req freshId agents).1.status ∈ ([201, 400, 401, 409] : List Nat) := by
  rcases hv : verifyToken env req with r | p
  · simp only [postAgents, hv]
    simp [verifyToken_error_status env req r hv]
  · simp only [postAgents, hv]
    by_cases hval : (truthy (getField req.body "name") && truthy (getField req.body "email") &&
        truthy (getField req.body "district")) = true
    · rw [if_pos hval]
      rcases hf : findOne agents
          (fun a => decide (getField a "email" = getField req.body "email")) with _ | a0
      · simp [hf, mkResp]
      · simp [hf, mkResp]
    · rw [if_neg hval]
      simp [mkResp]

/-- Status confinement of the PATCH agent-status route. -/
theorem patchAgentStatus_status (req : Request) (agents : List Doc) :
    (patchAgentStatus req agents).1.status ∈ ([200, 400, 404, 500] : List Nat) := by
  simp only [patchAgentStatus]
  by_cases hval : statusValid (getField req.body "status") = true
  · rw [if_pos hval]
    by_cases hid : isValidObjectId req.param = true
    · rw [if_pos hid]
      by_cases hm : (updateOne agents (idMatch req.param)
          [("status", (getField req.body "status").getD (Value.str ""))]).modified = 1
      · rw [if_pos hm]
        simp [mkResp]
      · rw [if_neg hm]
        simp [mkResp]
    · rw [if_neg hid]
      simp [mkResp]
  · rw [if_neg hval]
    simp [mkResp]

/-- Status confinement of the public GET policy-by-id route. -/
theorem getPolicyById_status (policies : List Doc) (idStr : String) :
    (getPolicyById policies idStr).status ∈ ([200, 404, 500] : List Nat) := by
  unfold getPolicyById
  by_cases hid : isValidObjectId idStr = true
  · rw [if_pos hid]
    rcases hf : findOne policies (idMatch idStr) with _ | p
    · simp [hf, mkResp]
    · simp [hf, mkResp]
  · rw [if_neg hid]
    simp [mkResp]

/-- Status confinement of the authenticated GET blogs listing. -/
theorem getBlogs_status (env : Env) (req : Request) (users blogs : List Doc) :
    (getBlogs env req users blogs).status ∈ ([200, 401, 500] : List Nat) := by
  rcases hv : verifyToken env req with r | p
  · simp only [getBlogs, hv]
    simp [verifyToken_error_status env req r hv]
  · simp only [getBlogs, hv]
    rcases hf : findOne users (emailMatch p.email) with _ | u
    · simp [hf, mkResp]
    · simp [hf, mkResp]

/-- Status confinement of the DELETE application route. -/
theorem deleteApplication_status (env : Env) (req : Request) (apps : List Doc) :
    (deleteApplication env req apps).1.status ∈ ([200, 401, 403, 404, 500] : List Nat) := by
  rcases hv : verifyToken env req with r | p
  · simp only [deleteApplication, hv]
    simp [verifyToken_error_status env req r hv]
  · simp only [deleteApplication, hv]
    by_cases hid : isValidObjectId req.param = true
    · rw [if_pos hid]
      rcases hf : findOne apps (idMatch req.param) with _ | a
      · simp [hf, mkResp]
      · simp only [hf]
        by_cases hown : (getField a "userEmail" ≠ some (Value.str p.email) ∧
            p.role ≠ some "admin")
        · rw [if_pos hown]
          simp [mkResp]
        · rw [if_neg hown]
          simp [mkResp]
    · rw [if_neg hid]
      simp [mkResp]

/-- Status confinement of the DELETE blog route. -/
theorem deleteBlog_status (env : Env) (req : Request) (users blogs : List Doc) :
    (deleteBlog env req users blogs).1.status ∈ ([200, 401, 403, 404, 500] : List Nat) := by
  rcases hv : verifyToken env req with r | p
  · simp only [deleteBlog, hv]
    simp [verifyToken_error_status env req r hv]
  · simp only [deleteBlog, hv]
    rcases ha : verifyAgent users p with r2 | u
    · simp only [ha]
      simp [verifyAgent_error_status users p r2 ha]
    · simp only [ha]
      by_cases hid : isValidObjectId req.param = true
      · rw [if_pos hid]
        rcases hf : findOne blogs (idMatch req.param) with _ | b
        · simp [hf, mkResp]
        · simp only [hf]
          by_cases hown : getField b "authorEmail" ≠ some (Value.str p.email)
          · rw [if_pos hown]
            simp [mkResp]
          · rw [if_neg hown]
            simp [mkResp]
      · rw [if_neg hid]
        simp [mkResp]

/-- Status confinement of the PATCH assign route. -/
theorem assignApplication_status (env : Env) (req : Request) (apps : List Doc) :
    (assignApplication env req apps).1.status ∈ ([200, 401, 403, 500] : List Nat) := by
  rcases hv : verifyJWT env req with r | p
  · simp only [assignApplication, hv]
    rcases verifyJWT_error_status env req r hv with h | h <;> simp [h]
  · simp only [assignApplication, hv]
    by_cases hid : isValidObjectId req.param = true
    · rw [if_pos hid]
      simp [mkResp]
    · rw [if_neg hid]
      simp [mkResp]

/-- Status confinement of the POST applications route. -/
theorem postApplications_status (env : Env) (req : Request) (freshId : String)
    (apps : List Doc) :
    (postApplications env req freshId apps).1.status ∈ ([201, 401] : List Nat) := by
  rcases hv : verifyToken env req with r | p
  · simp only [postApplications, hv]
    simp [verifyToken_error_status env req r hv]
  · simp [postApplications, hv]

/-- Status confinement of the GET application-by-id route. -/
theorem getApplicationById_status (env : Env) (req : Request) (apps : List Doc) :
    (getApplicationById env req apps).status ∈ ([200, 401, 403, 404, 500] : List Nat) := by
  rcases hv : verifyToken env req with r | p
  · simp only [getApplicationById, hv]
    simp [verifyToken_error_status env req r hv]
  · simp only [getApplicationById, hv]
    by_cases hid : isValidObjectId req.param = true
    · rw [if_pos hid]
      rcases hf : findOne apps (idMatch req.param) with _ | a
      · simp [hf, mkResp]
      · simp only [hf]
        by_cases hown : (getField a "userEmail" ≠ some (Value.str p.email) ∧
            p.role ≠ some "admin")
        · rw [if_pos hown]
          simp [mkResp]
        · rw [if_neg hown]
          simp [mkResp]
    · rw [if_neg hid]
      simp [mkResp]

/-- Status confinement of the POST users profile upsert. -/
theorem postUsers_status (body : Doc) (users : List Doc) :
    (postUsers body users).1.status ∈ ([200, 400] : List Nat) := by
  unfold postUsers
  by_cases hval : (truthy (getField body "email") && truthy (getField body "name")) = true
  · rw [if_pos hval]
    simp
  · rw [if_neg hval]
    simp [mkResp]

/-- Status confinement of the POST blogs route. -/
theorem postBlogs_status (env : Env) (req : Request) (users : List Doc)
    (freshId : String) (blogs : List Doc) :
    (postBlogs env req users freshId blogs).1.status ∈ ([201, 401, 403] : List Nat) := by
  rcases hv : verifyToken env req with r | p
  · simp only [postBlogs, hv]
    simp [verifyToken_error_status env req r hv]
  · simp only [postBlogs, hv]
    rcases ha : verifyAgent users p with r2 | u
    · simp only [ha]
      simp [verifyAgent_error_status users p r2 ha]
    · simp [ha]

/-- Claim C5 (amended): caller-visible failures follow the taxonomy
mapping extended with a validation class: Unauthenticated 401,
Forbidden 403, NotFound 404, Unavailable 500, Conflict 409, and
missing-required-field validation 400; every modeled handler responds
only with 200 or 201 and statuses from this mapping; in particular the
subscribe handler answers only 201, 400 or 409, the agents handler only
201, 400, 401 or 409 with its 400 on a missing name, email or district,
a duplicate newsletter subscription and a duplicate agent request
answer 409 with the store unchanged, and a role-store failure during
role resolution answers 500 with a fixed generic message carrying no
internal error detail. -/
theorem c5_error_taxonomy :
    (∀ (body : Doc) (now : Nat) (freshId : String) (subs : List Doc),
      (postSubscribe body now freshId subs).1.status ∈ ([201, 400, 409] : List Nat)) ∧
    (∀ (body : Doc) (now : Nat) (freshId : String) (subs : List Doc) (s0 : Doc),
      findOne subs (fun d => decide (getField d "email" = getField body "email")) = some s0 →
      truthy (getField body "name") = true → truthy (getField body "email") = true →
      postSubscribe body now freshId subs =
        (mkResp 409 "This email is already subscribed", subs)) ∧
    (∀ (env : Env) (req : Request) (freshId : String) (agents : List Doc)
       (h : String) (p : Principal) (a0 : Doc),
      req.authHeader = some h → startsWithBearer h = true →
      env.verify (extractToken h) = some p →
      truthy (getField req.body "name") = true →
      truthy (getField req.body "email") = true →
      truthy (getField req.body "district") = true →
      findOne agents (fun a => decide (getField a "email" = getField req.body "email")) = some a0 →
      postAgents env req freshId agents =
        (mkResp 409 "You have already submitted an agent request", agents)) ∧
    (∀ e : String,
      verifyAdminWith (Except.error e) =
        Except.error (mkResp 500 "Server error during admin verification")) ∧
    (∀ (env : Env) (req : Request) (freshId : String) (agents : List Doc),
      (postAgents env req freshId agents).1.status ∈ ([201, 400, 401, 409] : List Nat)) ∧
    (∀ (env : Env) (req : Request) (freshId : String) (agents : List Doc)
       (h : String) (p : Principal),
      req.authHeader = some h → startsWithBearer h = true →
      env.verify (extractToken h) = some p →
      (truthy (getField req.body "name") && truthy (getField req.body "email") &&
        truthy (getField req.body "district")) = false →
      postAgents env req freshId agents =
        (mkResp 400 "Name, Email & District are required", agents)) ∧
    (∀ (req : Request) (agents : List Doc),
      (patchAgentStatus req agents).1.status ∈ ([200, 400, 404, 500] : List Nat)) ∧
    (∀ (policies : List Doc) (idStr : String),
      (getPolicyById policies idStr).status ∈ ([200, 404, 500] : List Nat)) ∧
    (∀ (env : Env) (req : Request) (users blogs : List Doc),
      (getBlogs env req users blogs).status ∈ ([200, 401, 500] : List Nat)) ∧
    (∀ (env : Env) (req : Request) (apps : List Doc),
      (deleteApplication env req apps).1.status ∈ ([200, 401, 403, 404, 500] : List Nat)) ∧
    (∀ (env : Env) (req : Request) (users blogs : List Doc),
      (deleteBlog env req users blogs).1.status ∈ ([200, 401, 403, 404, 500] : List Nat)) ∧
    (∀ (env : Env) (req : Request) (apps : List Doc),
      (assignApplication env req apps).1.status ∈ ([200, 401, 403, 500] : List Nat)) ∧
    (∀ (env : Env) (req : Request) (freshId : String) (apps : List Doc),
      (postApplications env req freshId apps).1.status ∈ ([201, 401] : List Nat)) ∧
    (∀ (env : Env) (req : Request) (apps : List Doc),
      (getApplicationById env req apps).status ∈ ([200, 401, 403, 404, 500] : List Nat)) ∧
    (∀ (body : Doc) (users : List Doc),
      (postUsers body users).1.status ∈ ([200, 400] : List Nat)) ∧
    (∀ (env : Env) (req : Request) (users : List Doc) (freshId : String) (blogs : List Doc),
      (postBlogs env req users freshId blogs).1.status ∈ ([201, 401, 403] : List Nat)) := by
  refine ⟨?_, ?_, ?_, ?_, postAgents_status, ?_, patchAgentStatus_status,
    getPolicyById_status, getBlogs_status, deleteApplication_status,
    deleteBlog_status, assignApplication_status, postApplications_status,
    getApplicationById_status, postUsers_status, postBlogs_status⟩
  · intro body now freshId subs
    by_cases hval : (truthy (getField body "name") && truthy (getField body "email")) = true
    · rcases hdup : findOne subs (fun d => decide (getField d "email" = getField body "email")) with _ | s0
      · simp [postSubscribe, hval, hdup, mkResp]
      · simp [postSubscribe, hval, hdup, mkResp]
    · simp [postSubscribe, Bool.of_not_eq_true hval, mkResp]
  · intro body now freshId subs s0 hdup hn he
    simp [postSubscribe, hn, he, hdup]
  · intro env req freshId agents h p a0 hhdr hbear hver hn he hd hdup
    simp [postAgents, verifyToken, hhdr, hbear, hver, hn, he, hd, hdup]
  · intro e
    simp [verifyAdminWith]
  · intro env req freshId agents h p hhdr hbear hver hval
    have hvt : verifyToken env req = Except.ok p := by
      simp [verifyToken, hhdr, hbear, hver]
    simp only [postAgents, hvt]
    rw [if_neg (by simp [hval])]

/-- Witness for the amended claim C5 at concrete inputs. -/
theorem c5_error_taxonomy_witness :
    (postSubscribe [("name", Value.str "A"), ("email", Value.str "a@b.c")] 0
        "aaaaaaaaaaaaaaaaaaaaaaaa" []).1.status ∈ ([201, 400, 409] : List Nat) ∧
    postSubscribe [("name", Value.str "A"), ("email", Value.str "a@b.c")] 7
        "aaaaaaaaaaaaaaaaaaaaaaaa" [[("email", Value.str "a@b.c")]] =
      (mkResp 409 "This email is already subscribed", [[("email", Value.str "a@b.c")]]) ∧
    postAgents ⟨fun _ => some ⟨"a@b.c", none, none⟩, 0⟩
        ⟨some "Bearer t",
         [("name", Value.str "A"), ("email", Value.str "a@b.c"),
          ("district", Value.str "D")], ""⟩ "aaaaaaaaaaaaaaaaaaaaaaaa"
        [[("email", Value.str "a@b.c")]] =
      (mkResp 409 "You have already submitted an agent request",
       [[("email", Value.str "a@b.c")]]) ∧
    verifyAdminWith (Except.error "socket closed") =
      Except.error (mkResp 500 "Server error during admin verification") ∧
    (postAgents ⟨fun _ => some ⟨"a@b.c", none, none⟩, 0⟩
        ⟨some "Bearer t", [("email", Value.str "a@b.c")], ""⟩
        "aaaaaaaaaaaaaaaaaaaaaaaa" []).1.status ∈ ([201, 400, 401, 409] : List Nat) ∧
    postAgents ⟨fun _ => some ⟨"a@b.c", none, none⟩, 0⟩
        ⟨some "Bearer t", [("email", Value.str "a@b.c")], ""⟩
        "aaaaaaaaaaaaaaaaaaaaaaaa" [] =
      (mkResp 400 "Name, Email & District are required", []) :=
  ⟨c5_error_taxonomy.1 [("name", Value.str "A"), ("email", Value.str "a@b.c")] 0
      "aaaaaaaaaaaaaaaaaaaaaaaa" [],
   c5_error_taxonomy.2.1 [("name", Value.str "A"), ("email", Value.str "a@b.c")] 7
      "aaaaaaaaaaaaaaaaaaaaaaaa" [[("email", Value.str "a@b.c")]]
      [("email", Value.str "a@b.c")] (by decide) (by decide) (by decide),
   c5_error_taxonomy.2.2.1 ⟨fun _ => some ⟨"a@b.c", none, none⟩, 0⟩
      ⟨some "Bearer t",
       [("name", Value.str "A"), ("email", Value.str "a@b.c"),
        ("district", Value.str "D")], ""⟩ "aaaaaaaaaaaaaaaaaaaaaaaa"
      [[("email", Value.str "a@b.c")]] "Bearer t" ⟨"a@b.c", none, none⟩
      [("email", Value.str "a@b.c")] rfl (by decide) rfl
      (by decide) (by decide) (by decide) (by decide),
   c5_error_taxonomy.2.2.2.1 "socket closed",
   c5_error_taxonomy.2.2.2.2.1 ⟨fun _ => some ⟨"a@b.c", none, none⟩, 0⟩
      ⟨some "Bearer t", [("email", Value.str "a@b.c")], ""⟩
      "aaaaaaaaaaaaaaaaaaaaaaaa" [],
   c5_error_taxonomy.2.2.2.2.2.1 ⟨fun _ => some ⟨"a@b.c", none, none⟩, 0⟩
      ⟨some "Bearer t", [("email", Value.str "a@b.c")], ""⟩
      "aaaaaaaaaaaaaaaaaaaaaaaa" [] "Bearer t" ⟨"a@b.c", none, none⟩
      rfl (by decide) rfl (by decide)⟩

end LifeNest
